import Mathlib

/-!
Verification of the PhoneTracer repository (shivraj1182/PhoneTracer).

The program is a command-line OSINT scaffold: `src/phonetracer.py` holds the
`PhoneTracer` class (config loading, tracing, module dispatch, export) and the
CLI entry point `main`; `src/modules/social_media.py` holds the
`SocialMediaDetector` class.  Python dictionaries are embedded as association
lists of `String × Val` pairs in insertion order (Python dicts preserve
insertion order); calls into third-party libraries (`phonenumbers.parse`,
`yaml.safe_load`, `json.dumps`, `datetime.utcnow`) are oracle parameters or
abstract outcome types, since their internals are not part of the repository.
-/

set_option linter.unusedVariables false

namespace PhoneTracer

/-- JSON-like values, the codomain of the Python dictionaries the program
builds. -/
inductive Val where
  | str (s : String)
  | int (n : Int)
  | bool (b : Bool)
  | dict (entries : List (String × Val))
  | list (items : List Val)

/-- Dictionary lookup on an association list (Python `d[k]` / `d.get(k)`). -/
def lookup : List (String × Val) → String → Option Val
  | [], _ => none
  | (k, v) :: rest, key => if k = key then some v else lookup rest key

/-- Dictionary write `d[k] = v` on an association list: replaces the value at
an existing key in place, otherwise appends the new pair at the end, matching
the insertion-order semantics of Python dicts. -/
def setKey : List (String × Val) → String → Val → List (String × Val)
  | [], key, v => [(key, v)]
  | (k, w) :: rest, key, v =>
      if k = key then (key, v) :: rest else (k, w) :: setKey rest key v

/-- `PhoneTracer._run_module` (src/phonetracer.py, lines 140-156): the
placeholder dispatcher.  It builds and returns a fixed two-key dictionary and
ignores the phone number. -/
def runModule (module_name : String) (phone_number : String) :
    List (String × Val) :=
  [("status", .str "not_implemented"),
   ("message", .str ("Module " ++ module_name ++ " not yet implemented"))]

/-- The outcome of the call `self._run_module(module_name, phone_number)` as
observed by the `try` block in `trace`: the body of `_run_module` is a pure
dictionary literal built with an f-string, so the call always returns
normally and never raises. -/
def runModuleE (module_name : String) (phone_number : String) :
    Except String (List (String × Val)) :=
  .ok (runModule module_name phone_number)

/-- The record returned by `PhoneTracer._parse_number` on success
(src/phonetracer.py, lines 130-135): the four fields extracted from the
`phonenumbers` library. -/
structure ParsedRecord where
  country_code : Int
  national_number : Int
  is_valid : Bool
  is_possible : Bool

/-- The dictionary `_parse_number` returns for a parsed record. -/
def parsedVal (r : ParsedRecord) : Val :=
  .dict [("country_code", .int r.country_code),
         ("national_number", .int r.national_number),
         ("is_valid", .bool r.is_valid),
         ("is_possible", .bool r.is_possible)]

/-- The result dictionary of `PhoneTracer.trace`: the three keys
`phone_number`, `timestamp` and `data` are always present (lines 86-90). -/
structure TraceResult where
  phone_number : String
  timestamp : String
  data : List (String × Val)

/-- The module loop of `trace` (src/phonetracer.py, lines 105-112): for each
requested module name, run the dispatcher under `try`; on normal return store
its result under the module name, on an exception store `\x7berror: str(e)\x7d`. -/
def traceLoop (phone_number : String) (modules : List String)
    (data : List (String × Val)) : List (String × Val) :=
  modules.foldl
    (fun acc module_name =>
      match runModuleE module_name phone_number with
      | .ok v => setKey acc module_name (.dict v)
      | .error e => setKey acc module_name (.dict [("error", .str e)]))
    data

/-- `PhoneTracer.trace` (src/phonetracer.py, lines 73-115).  `parse` is the
oracle for `_parse_number` (which wraps the third-party `phonenumbers`
library and returns `None` on any parse exception), `ts` the oracle for
`_get_timestamp`.  On parse failure the partial result is returned with an
empty `data` dictionary; otherwise the parsed record is stored under
`parsed`, the default module list is substituted when none was given, and
the module loop fills in one entry per requested module. -/
def trace (parse : String → Option ParsedRecord) (ts : String)
    (phone_number : String) (modules : Option (List String)) : TraceResult :=
  match parse phone_number with
  | none => { phone_number := phone_number, timestamp := ts, data := [] }
  | some r =>
      let data0 := setKey [] "parsed" (parsedVal r)
      let mods := match modules with
        | none => ["validator", "carrier", "location"]
        | some ms => ms
      { phone_number := phone_number, timestamp := ts,
        data := traceLoop phone_number mods data0 }

/-- Truthiness test `if d[k]:` for a boolean entry of a dictionary, as used
on the `registered` / `possible` fields in `check_all_platforms`. -/
def getBoolTruthy (d : List (String × Val)) (k : String) : Bool :=
  match lookup d k with
  | some (.bool b) => b
  | _ => false

/-- `SocialMediaDetector.platforms` (src/modules/social_media.py,
lines 16-27): the ten fixed platform names. -/
def platforms : List String :=
  ["WhatsApp", "Telegram", "Signal", "Viber", "Facebook", "Instagram",
   "Twitter/X", "Snapchat", "TikTok", "LinkedIn"]

/-- `SocialMediaDetector._check_whatsapp` (src/modules/social_media.py,
lines 73-87): a fixed placeholder dictionary. -/
def checkWhatsapp (phone_number : String) : List (String × Val) :=
  [("registered", .bool false),
   ("method", .str "API check"),
   ("confidence", .str "low"),
   ("note", .str "Requires WhatsApp Business API or third-party service")]

/-- `SocialMediaDetector._check_telegram` (src/modules/social_media.py,
lines 89-100). -/
def checkTelegram (phone_number : String) : List (String × Val) :=
  [("registered", .bool false),
   ("method", .str "Telegram API"),
   ("confidence", .str "low"),
   ("note", .str "Requires Telegram API credentials")]

/-- `SocialMediaDetector._check_signal` (src/modules/social_media.py,
lines 102-113). -/
def checkSignal (phone_number : String) : List (String × Val) :=
  [("registered", .bool false),
   ("method", .str "Limited detection"),
   ("confidence", .str "very-low"),
   ("note", .str "Signal prioritizes privacy - limited detection possible")]

/-- `SocialMediaDetector._check_generic_platform`
(src/modules/social_media.py, lines 115-127). -/
def checkGenericPlatform (phone_number : String) (platform : String) :
    List (String × Val) :=
  [("possible", .bool false),
   ("method", .str "Manual verification required"),
   ("confidence", .str "very-low"),
   ("note", .str (platform ++ " requires manual verification or account access"))]

/-- `SocialMediaDetector.check_all_platforms` (src/modules/social_media.py,
lines 29-71).  Builds the result dictionary, appends each platform to
`platforms_found` when its boolean field is truthy, and records each
per-platform result under `details`. -/
def checkAllPlatforms (phone_number : String) : List (String × Val) :=
  let whatsapp_result := checkWhatsapp phone_number
  let found1 : List Val :=
    if getBoolTruthy whatsapp_result "registered" then [.str "WhatsApp"] else []
  let details1 := setKey [] "WhatsApp" (.dict whatsapp_result)
  let telegram_result := checkTelegram phone_number
  let found2 :=
    if getBoolTruthy telegram_result "registered"
    then found1 ++ [.str "Telegram"] else found1
  let details2 := setKey details1 "Telegram" (.dict telegram_result)
  let signal_result := checkSignal phone_number
  let found3 :=
    if getBoolTruthy signal_result "registered"
    then found2 ++ [.str "Signal"] else found2
  let details3 := setKey details2 "Signal" (.dict signal_result)
  let step := fun (acc : List Val × List (String × Val)) (platform : String) =>
    let result := checkGenericPlatform phone_number platform
    let found :=
      if getBoolTruthy result "possible"
      then acc.1 ++ [.str platform] else acc.1
    (found, setKey acc.2 platform (.dict result))
  let finalAcc :=
    ["Viber", "Facebook", "Instagram", "Twitter/X", "Snapchat", "TikTok",
     "LinkedIn"].foldl step (found3, details3)
  [("phone_number", .str phone_number),
   ("platforms_found", .list finalAcc.1),
   ("platforms_checked", .list (platforms.map .str)),
   ("details", .dict finalAcc.2)]

/-- Python `str.strip()`: remove leading and trailing whitespace, modelled
over the string's character list. -/
def pyStrip (s : String) : String :=
  ⟨((s.data.dropWhile Char.isWhitespace).reverse.dropWhile
      Char.isWhitespace).reverse⟩

/-- The list comprehension `[line.strip() for line in f if line.strip()]` of
`main` (src/phonetracer.py, line 284).  The batch input file is modelled as
the list of its lines, as Python's file iteration yields them. -/
def batchNumbers (lines : List String) : List String :=
  (lines.map pyStrip).filter (fun l => l ≠ "")

/-- The batch loop of `main` (src/phonetracer.py, lines 286-290):
`all_results` starts empty and one trace result is appended per processed
phone number. -/
def batchResults (parse : String → Option ParsedRecord) (ts : String)
    (modules : Option (List String)) (lines : List String) :
    List TraceResult :=
  (batchNumbers lines).foldl
    (fun all_results phone_number =>
      all_results ++ [trace parse ts phone_number modules])
    []

/-- Severity of a logging call (`logger.info` / `logger.warning` /
`logger.error`). -/
inductive LogLevel where
  | info
  | warning
  | err
deriving DecidableEq

/-- Outcome of the config-file access in `_load_config`, combining the
`open` call and the `yaml.safe_load(f).get('settings', \x7b\x7d)` step:
either no file was given, the file was missing (`FileNotFoundError`), some
other exception was raised while opening, parsing, or reading `settings`
from a non-dict document, or a `settings` mapping was obtained. -/
inductive ConfigFileOutcome where
  | noFile
  | notFound (path : String)
  | loadError (msg : String)
  | loaded (settings : List (String × Val))

/-- The `default_config` dictionary of `_load_config`
(src/phonetracer.py, lines 53-58). -/
def defaultConfig : List (String × Val) :=
  [("timeout", .int 30),
   ("rate_limit", .int 60),
   ("cache_enabled", .bool true),
   ("verbose", .bool false)]

/-- Python `d.update(u)`: write every pair of `u` into `d` in order. -/
def updateDict (d : List (String × Val)) (u : List (String × Val)) :
    List (String × Val) :=
  u.foldl (fun acc kv => setKey acc kv.1 kv.2) d

/-- `PhoneTracer._load_config` (src/phonetracer.py, lines 43-71), paired
with the log messages it emits.  A missing file logs a warning and keeps
the defaults; any other load error logs at error level and keeps the
defaults; a loaded `settings` mapping is merged over the defaults. -/
def loadConfig : ConfigFileOutcome → List (String × Val) × List (LogLevel × String)
  | .noFile => (defaultConfig, [])
  | .notFound path =>
      (defaultConfig,
       [(.warning, "Config file " ++ path ++ " not found. Using defaults.")])
  | .loadError msg =>
      (defaultConfig, [(.err, "Error loading config: " ++ msg)])
  | .loaded settings => (updateDict defaultConfig settings, [])

/-- The outcome of `_load_config`'s config-file access is an error outcome
(as opposed to no file given, or a successful load). -/
def configError : ConfigFileOutcome → Prop
  | .notFound _ => True
  | .loadError _ => True
  | _ => False

/-- Where `export_results` sends its serialized output: nowhere (no
results), to a file, or to stdout. -/
inductive ExportAction where
  | skipped
  | toFile (path : String) (content : String)
  | toStdout (content : String)
deriving DecidableEq

/-- `PhoneTracer.export_results` (src/phonetracer.py, lines 168-191), paired
with the log messages it emits.  `dumps` is the oracle for
`json.dumps(self.results, indent=2)`.  With no results it only logs a
warning; otherwise the JSON serialization is produced for every format
(non-`json` formats additionally log a warning) and written to the output
file when one is given, to stdout otherwise. -/
def exportResults (dumps : List (String × Val) → String)
    (results : List (String × Val)) (output_format : String)
    (output_file : Option String) :
    ExportAction × List (LogLevel × String) :=
  if results.isEmpty then (.skipped, [(.warning, "No results to export")])
  else
    let output := dumps results
    let logs : List (LogLevel × String) :=
      if output_format = "json" then []
      else [(.warning, "Format " ++ output_format ++ " not yet implemented")]
    match output_file with
    | some path =>
        (.toFile path output, logs ++ [(.info, "Results exported to " ++ path)])
    | none => (.toStdout output, logs)

/-- The `choices` list of the `--format` argument (src/phonetracer.py,
lines 238-243). -/
def formatChoices : List String := ["json", "csv", "html"]

/-- Argparse validation of a `--format` value: a value outside `choices`
makes `parse_args` fail with an error (argparse then exits), any value in
`choices` is accepted unchanged. -/
def parseFormat (s : String) : Except String String :=
  if s ∈ formatChoices then .ok s
  else .error ("argument --format/-f: invalid choice: " ++ s)

/-- Python truthiness of an optional string argument: `None` and the empty
string are falsy.  `main` tests `not args.phone_number and not args.batch`. -/
def falsyArg : Option String → Bool
  | none => true
  | some s => s = ""

/-- How the processing block of `main` (the `try` body, src/phonetracer.py,
lines 279-307) ends: normally, interrupted by `KeyboardInterrupt`, or with
some other exception. -/
inductive RunOutcome where
  | success
  | interrupted
  | failure (msg : String)

/-- The exit code of `main` (src/phonetracer.py, lines 272-274 and 309-315):
`sys.exit(1)` when neither a phone number nor a batch file is supplied
(before processing starts), else `130` on `KeyboardInterrupt`, `1` on any
other exception, and a normal return (exit code `0`) on success. -/
def mainExitCode (phone_number : Option String) (batch : Option String)
    (outcome : RunOutcome) : Nat :=
  if falsyArg phone_number && falsyArg batch then 1
  else
    match outcome with
    | .success => 0
    | .interrupted => 130
    | .failure _ => 1

/-! ### Helper lemmas about dictionary writes and the module loop -/

theorem lookup_setKey (k : String) (v : Val) :
    ∀ (d : List (String × Val)) (k' : String),
      lookup (setKey d k v) k' = if k = k' then some v else lookup d k' := by
  intro d
  induction d with
  | nil =>
      intro k'
      by_cases h : k = k' <;> simp [setKey, lookup, h]
  | cons hd tl ih =>
      intro k'
      obtain ⟨a, w⟩ := hd
      by_cases hak : a = k
      · subst hak
        by_cases h : a = k' <;> simp [setKey, lookup, h]
      · by_cases h : a = k'
        · subst h
          simp [setKey, hak, lookup, Ne.symm hak]
        · simp [setKey, hak, lookup, h, ih]

theorem mem_setKey (k : String) (v : Val) :
    ∀ (d : List (String × Val)) kv, kv ∈ setKey d k v →
      kv = (k, v) ∨ kv ∈ d := by
  intro d
  induction d with
  | nil =>
      intro kv h
      simp [setKey] at h
      exact Or.inl h
  | cons hd tl ih =>
      intro kv h
      obtain ⟨a, w⟩ := hd
      by_cases hak : a = k
      · subst hak
        simp [setKey] at h
        rcases h with h | h
        · exact Or.inl h
        · exact Or.inr (List.mem_cons_of_mem _ h)
      · simp [setKey, hak] at h
        rcases h with h | h
        · exact Or.inr (by simp [h])
        · rcases ih kv h with h' | h'
          · exact Or.inl h'
          · exact Or.inr (List.mem_cons_of_mem _ h')

theorem traceLoop_eq (phone_number : String) (ms : List String)
    (data : List (String × Val)) :
    traceLoop phone_number ms data =
      ms.foldl
        (fun acc m => setKey acc m (.dict (runModule m phone_number))) data :=
  rfl

theorem lookup_traceLoop (phone_number : String) :
    ∀ (ms : List String) (data : List (String × Val)) (k : String),
      lookup (traceLoop phone_number ms data) k =
        if k ∈ ms then some (Val.dict (runModule k phone_number))
        else lookup data k := by
  intro ms
  induction ms with
  | nil => intro data k; simp [traceLoop]
  | cons m tl ih =>
      intro data k
      have step : traceLoop phone_number (m :: tl) data =
          traceLoop phone_number tl
            (setKey data m (.dict (runModule m phone_number))) := rfl
      rw [step, ih]
      by_cases htl : k ∈ tl
      · simp [htl]
      · by_cases hm : m = k
        · subst hm
          simp [htl, lookup_setKey]
        · simp [htl, hm, lookup_setKey, Ne.symm hm]

theorem mem_traceLoop (phone_number : String) :
    ∀ (ms : List String) (data : List (String × Val)) kv,
      kv ∈ traceLoop phone_number ms data →
      kv ∈ data ∨ ∃ m, kv = (m, Val.dict (runModule m phone_number)) := by
  intro ms
  induction ms with
  | nil => intro data kv h; exact Or.inl h
  | cons m tl ih =>
      intro data kv h
      have step : traceLoop phone_number (m :: tl) data =
          traceLoop phone_number tl
            (setKey data m (.dict (runModule m phone_number))) := rfl
      rw [step] at h
      rcases ih _ kv h with h' | h'
      · rcases mem_setKey _ _ _ _ h' with h'' | h''
        · exact Or.inr ⟨m, h''⟩
        · exact Or.inl h''
      · exact Or.inr h'

theorem foldl_append_singleton {α β : Type} (f : α → β) :
    ∀ (l : List α) (acc : List β),
      l.foldl (fun a x => a ++ [f x]) acc = acc ++ l.map f := by
  intro l
  induction l with
  | nil => intro acc; simp
  | cons x tl ih => intro acc; simp [ih]

/-! ### Claim theorems -/

/-- Claim C1: for every module name and phone number, `_run_module` returns
the mapping with `status` equal to `not_implemented` and `message` equal to
`Module <name> not yet implemented`; in particular its `status` field is
`not_implemented` for all inputs. -/
theorem run_module_always_not_implemented (module_name phone_number : String) :
    runModule module_name phone_number =
      [("status", Val.str "not_implemented"),
       ("message",
        Val.str ("Module " ++ module_name ++ " not yet implemented"))] ∧
    lookup (runModule module_name phone_number) "status" =
      some (Val.str "not_implemented") :=
  ⟨rfl, rfl⟩

/-- Claim C2: for every phone number, each of the ten per-platform result
mappings stored under `details` by `check_all_platforms` has its boolean
field (`registered` for WhatsApp, Telegram and Signal, `possible` for the
other seven platforms) equal to `false`. -/
theorem check_all_platforms_bool_false (phone_number : String) :
    ∃ d, lookup (checkAllPlatforms phone_number) "details" =
        some (Val.dict d) ∧
      (∃ e, lookup d "WhatsApp" = some (Val.dict e) ∧
        lookup e "registered" = some (Val.bool false)) ∧
      (∃ e, lookup d "Telegram" = some (Val.dict e) ∧
        lookup e "registered" = some (Val.bool false)) ∧
      (∃ e, lookup d "Signal" = some (Val.dict e) ∧
        lookup e "registered" = some (Val.bool false)) ∧
      (∃ e, lookup d "Viber" = some (Val.dict e) ∧
        lookup e "possible" = some (Val.bool false)) ∧
      (∃ e, lookup d "Facebook" = some (Val.dict e) ∧
        lookup e "possible" = some (Val.bool false)) ∧
      (∃ e, lookup d "Instagram" = some (Val.dict e) ∧
        lookup e "possible" = some (Val.bool false)) ∧
      (∃ e, lookup d "Twitter/X" = some (Val.dict e) ∧
        lookup e "possible" = some (Val.bool false)) ∧
      (∃ e, lookup d "Snapchat" = some (Val.dict e) ∧
        lookup e "possible" = some (Val.bool false)) ∧
      (∃ e, lookup d "TikTok" = some (Val.dict e) ∧
        lookup e "possible" = some (Val.bool false)) ∧
      (∃ e, lookup d "LinkedIn" = some (Val.dict e) ∧
        lookup e "possible" = some (Val.bool false)) :=
  ⟨_, rfl, ⟨_, rfl, rfl⟩, ⟨_, rfl, rfl⟩, ⟨_, rfl, rfl⟩, ⟨_, rfl, rfl⟩,
   ⟨_, rfl, rfl⟩, ⟨_, rfl, rfl⟩, ⟨_, rfl, rfl⟩, ⟨_, rfl, rfl⟩,
   ⟨_, rfl, rfl⟩, ⟨_, rfl, rfl⟩⟩

/-- Claim C3: for every phone number on which parsing fails, `trace` returns
the partial result whose `data` mapping is empty (no module entries and no
`parsed` entry) while the `phone_number` and `timestamp` fields are still
present; no module is run. -/
theorem trace_parse_failure (parse : String → Option ParsedRecord)
    (ts phone_number : String) (modules : Option (List String))
    (h : parse phone_number = none) :
    trace parse ts phone_number modules =
      { phone_number := phone_number, timestamp := ts, data := [] } := by
  unfold trace
  rw [h]

/-- Witness for `trace_parse_failure` at a concrete failing parser. -/
theorem trace_parse_failure_witness :
    trace (fun _ => none) "2024-01-01T00:00:00" "not-a-number" none =
      { phone_number := "not-a-number", timestamp := "2024-01-01T00:00:00",
        data := [] } :=
  trace_parse_failure (fun _ => none) "2024-01-01T00:00:00" "not-a-number"
    none rfl

/-- Claim C10: when no module list is supplied, `trace` on a successfully
parsed number runs exactly the default modules `validator`, `carrier`,
`location` in that order, so `data` has exactly the keys `parsed`,
`validator`, `carrier`, `location` in that order. -/
theorem trace_default_modules (parse : String → Option ParsedRecord)
    (ts phone_number : String) (r : ParsedRecord)
    (h : parse phone_number = some r) :
    (trace parse ts phone_number none).data =
      [("parsed", parsedVal r),
       ("validator", Val.dict (runModule "validator" phone_number)),
       ("carrier", Val.dict (runModule "carrier" phone_number)),
       ("location", Val.dict (runModule "location" phone_number))] ∧
    (trace parse ts phone_number none).data.map Prod.fst =
      ["parsed", "validator", "carrier", "location"] := by
  unfold trace
  rw [h]
  exact ⟨rfl, rfl⟩

/-- Witness for `trace_default_modules` at a concrete succeeding parser. -/
theorem trace_default_modules_witness :
    (trace (fun _ => some ⟨1, 5551234567, true, true⟩) "2024-01-01T00:00:00"
        "+15551234567" none).data.map Prod.fst =
      ["parsed", "validator", "carrier", "location"] :=
  (trace_default_modules (fun _ => some ⟨1, 5551234567, true, true⟩)
    "2024-01-01T00:00:00" "+15551234567" ⟨1, 5551234567, true, true⟩ rfl).2

/-- Claim C9: `_run_module` is total (its embedded call outcome is always a
normal return), so the per-module exception handler in `trace` is
unreachable: on every successfully parsed number, every requested module's
`data` entry equals the fixed `not_implemented` mapping, and no `data` entry
has the form of an error record `\x7berror: message\x7d`. -/
theorem trace_module_handler_unreachable (parse : String → Option ParsedRecord)
    (ts phone_number : String) (modules : List String) (r : ParsedRecord)
    (h : parse phone_number = some r) :
    (∀ module_name, runModuleE module_name phone_number =
      .ok (runModule module_name phone_number)) ∧
    (∀ m ∈ modules,
      lookup (trace parse ts phone_number (some modules)).data m =
        some (Val.dict (runModule m phone_number))) ∧
    (∀ kv ∈ (trace parse ts phone_number (some modules)).data, ∀ msg,
      kv.2 ≠ Val.dict [("error", Val.str msg)]) := by
  have hdata : (trace parse ts phone_number (some modules)).data =
      traceLoop phone_number modules [("parsed", parsedVal r)] := by
    unfold trace
    rw [h]
    rfl
  refine ⟨fun _ => rfl, ?_, ?_⟩
  · intro m hm
    rw [hdata, lookup_traceLoop]
    simp [hm]
  · intro kv hkv msg
    rw [hdata] at hkv
    rcases mem_traceLoop phone_number modules _ kv hkv with h' | h'
    · simp only [List.mem_singleton] at h'
      subst h'
      simp [parsedVal]
    · obtain ⟨m, hm⟩ := h'
      subst hm
      simp [runModule]

/-- Witness for `trace_module_handler_unreachable` at a concrete parser and
module list. -/
theorem trace_module_handler_unreachable_witness :
    lookup (trace (fun _ => some ⟨1, 5551234567, true, true⟩)
        "2024-01-01T00:00:00" "+15551234567" (some ["spam"])).data "spam" =
      some (Val.dict (runModule "spam" "+15551234567")) :=
  ((trace_module_handler_unreachable (fun _ => some ⟨1, 5551234567, true, true⟩)
      "2024-01-01T00:00:00" "+15551234567" ["spam"]
      ⟨1, 5551234567, true, true⟩ rfl).2.1) "spam" (by simp)

/-- Counterexample to claim C4 as stated: a batch file with two input lines
whose second line is blank yields one result record, not two — blank lines
are filtered out before processing. -/
theorem batch_line_count_counterexample :
    ["+15551234567", ""].length = 2 ∧
    (batchResults (fun _ => none) "2024-01-01T00:00:00" none
        ["+15551234567", ""]).length = 1 :=
  ⟨rfl, rfl⟩

/-- Claim C4 (amended): in batch mode the exported output list contains
exactly one result record per non-empty (after stripping) input line, in
the same order as those lines appear in the input file; blank or
whitespace-only lines are skipped. -/
theorem batch_results_per_nonempty_line (parse : String → Option ParsedRecord)
    (ts : String) (modules : Option (List String)) (lines : List String) :
    batchResults parse ts modules lines =
      (batchNumbers lines).map (fun n => trace parse ts n modules) ∧
    (batchResults parse ts modules lines).length =
      (batchNumbers lines).length := by
  have hmap : batchResults parse ts modules lines =
      (batchNumbers lines).map (fun n => trace parse ts n modules) := by
    unfold batchResults
    rw [foldl_append_singleton]
    simp
  exact ⟨hmap, by rw [hmap]; simp⟩

/-- Counterexample to claim C5 as stated: on a config file whose contents
fail to load, `_load_config` returns the defaults but logs at error level,
not warning level — the claim that a warning is logged on every config-file
error fails on this input. -/
theorem load_config_error_level_counterexample :
    (loadConfig (ConfigFileOutcome.loadError "bad yaml")).1 = defaultConfig ∧
    (loadConfig (ConfigFileOutcome.loadError "bad yaml")).2.map Prod.fst =
      [LogLevel.err] ∧
    LogLevel.err ≠ LogLevel.warning :=
  ⟨rfl, rfl, by decide⟩

/-- Claim C5 (amended): on every config-file error (file missing, or file
contents unloadable), `_load_config` returns exactly the default
configuration, equal to the configuration returned when no config file is
given, and logs exactly one message: a warning when the file is missing, an
error-level message for any other load failure. -/
theorem load_config_error_defaults (o : ConfigFileOutcome)
    (h : configError o) :
    (loadConfig o).1 = (loadConfig ConfigFileOutcome.noFile).1 ∧
    (loadConfig o).1 =
      [("timeout", Val.int 30), ("rate_limit", Val.int 60),
       ("cache_enabled", Val.bool true), ("verbose", Val.bool false)] ∧
    (∀ path, o = ConfigFileOutcome.notFound path →
      (loadConfig o).2.map Prod.fst = [LogLevel.warning]) ∧
    (∀ msg, o = ConfigFileOutcome.loadError msg →
      (loadConfig o).2.map Prod.fst = [LogLevel.err]) := by
  cases o with
  | noFile => exact absurd h (by simp [configError])
  | loaded settings => exact absurd h (by simp [configError])
  | notFound path => exact ⟨rfl, rfl, fun _ _ => rfl, by simp⟩
  | loadError msg => exact ⟨rfl, rfl, by simp, fun _ _ => rfl⟩

/-- Witness for `load_config_error_defaults` at a concrete missing file. -/
theorem load_config_error_defaults_witness :
    (loadConfig (ConfigFileOutcome.notFound "config.yaml")).1 =
      (loadConfig ConfigFileOutcome.noFile).1 :=
  (load_config_error_defaults (ConfigFileOutcome.notFound "config.yaml")
    trivial).1

/-- Claim C6: for every non-empty results mapping and every output format
other than `json`, `export_results` produces exactly the same output as for
format `json`: the JSON serialization of the results, written to the output
file when one is given and to stdout otherwise. -/
theorem export_results_format_fallback
    (dumps : List (String × Val) → String) (results : List (String × Val))
    (output_format : String) (output_file : Option String)
    (hne : results ≠ []) (hfmt : output_format ≠ "json") :
    (exportResults dumps results output_format output_file).1 =
      (exportResults dumps results "json" output_file).1 ∧
    (exportResults dumps results output_format output_file).1 =
      (match output_file with
       | some path => ExportAction.toFile path (dumps results)
       | none => ExportAction.toStdout (dumps results)) := by
  have hempty : results.isEmpty = false := by
    cases results with
    | nil => exact absurd rfl hne
    | cons _ _ => rfl
  unfold exportResults
  rw [hempty]
  cases output_file <;> simp

/-- Witness for `export_results_format_fallback` at a concrete non-empty
result and the `csv` format. -/
theorem export_results_format_fallback_witness :
    (exportResults (fun _ => "serialized")
        [("phone_number", Val.str "+15551234567")] "csv" none).1 =
      (exportResults (fun _ => "serialized")
        [("phone_number", Val.str "+15551234567")] "json" none).1 :=
  (export_results_format_fallback (fun _ => "serialized")
    [("phone_number", Val.str "+15551234567")] "csv" none
    (List.cons_ne_nil _ _) (by decide)).1

/-- Claim C7: every `--format` value outside `\x7bjson, csv, html\x7d` is
rejected by argparse validation, and a value it accepts is always in that
set, so the exporter is only ever reached with a format in the set. -/
theorem format_choices_validated (s : String) :
    (s ∉ formatChoices → ∃ e, parseFormat s = Except.error e) ∧
    (∀ f, parseFormat s = Except.ok f → f ∈ formatChoices) := by
  constructor
  · intro h
    exact ⟨"argument --format/-f: invalid choice: " ++ s,
      by simp [parseFormat, h]⟩
  · intro f hf
    by_cases h : s ∈ formatChoices
    · simp only [parseFormat, if_pos h] at hf
      cases hf
      exact h
    · simp [parseFormat, h] at hf

/-- Witness for `format_choices_validated` at the concrete value `xml`. -/
theorem format_choices_validated_witness :
    "xml" ∉ formatChoices ∧ ∃ e, parseFormat "xml" = Except.error e :=
  ⟨by decide, (format_choices_validated "xml").1 (by decide)⟩

/-- Claim C8: the exit code of `main` is `1` when neither a phone number
nor a batch file is supplied (both arguments falsy), and otherwise `0` on
successful completion, `130` on a keyboard interrupt, and `1` on any other
unhandled error during processing. -/
theorem main_exit_codes (phone_number batch : Option String)
    (outcome : RunOutcome) :
    ((falsyArg phone_number && falsyArg batch) = true →
      mainExitCode phone_number batch outcome = 1) ∧
    ((falsyArg phone_number && falsyArg batch) = false →
      mainExitCode phone_number batch RunOutcome.success = 0 ∧
      mainExitCode phone_number batch RunOutcome.interrupted = 130 ∧
      ∀ msg, mainExitCode phone_number batch (RunOutcome.failure msg) = 1) := by
  constructor
  · intro h
    simp [mainExitCode, h]
  · intro h
    refine ⟨?_, ?_, fun msg => ?_⟩ <;> simp [mainExitCode, h]

/-- Witness for `main_exit_codes` at concrete arguments. -/
theorem main_exit_codes_witness :
    mainExitCode none none RunOutcome.success = 1 ∧
    mainExitCode (some "+15551234567") none RunOutcome.success = 0 ∧
    mainExitCode (some "+15551234567") none RunOutcome.interrupted = 130 ∧
    mainExitCode (some "+15551234567") none (RunOutcome.failure "boom") = 1 :=
  ⟨(main_exit_codes none none RunOutcome.success).1 (by decide),
   ((main_exit_codes (some "+15551234567") none RunOutcome.success).2
      (by decide)).1,
   ((main_exit_codes (some "+15551234567") none RunOutcome.success).2
      (by decide)).2.1,
   ((main_exit_codes (some "+15551234567") none RunOutcome.success).2
      (by decide)).2.2 "boom"⟩

end PhoneTracer
